import Mathlib

/-!
Shallow embedding of the UNO_GAME server core (src/server/game/Card.js,
src/server/game/GameRules.js, src/server/game/Player.js — the Player and
GameManager classes — and src/server/utils/constants.js, with `generateRoomId`,
`getNextPlayerIndex` and `shuffleArray` from the helpers module).

Modelling conventions, each traceable to the JavaScript source:
* JS arrays used as stacks push/pop at the BACK; we store every pile with the
  top of the stack at the HEAD of the Lean list, so `push` is cons and `pop`
  is head/tail.  Only the stack discipline matters to the code.
* `shuffleArray` is a Fisher–Yates shuffle, i.e. a permutation whose
  randomness we cannot embed; every operation that shuffles takes an explicit
  `shuffle : List Card → List Card` oracle standing for that call's random
  permutation.  Theorems assume only what Fisher–Yates guarantees
  (length preservation).
* `generatePlayerId` / `generateRoomId` randomness is likewise passed in as an
  oracle argument (`pid` strings, `rand : Nat → Fin 36`).
* The GameManager's global `this.players` map binds a socket id to the very
  Player object stored in its room's `players` array; we model the lookup by
  searching the room's player list by socket id.
* Card `id` strings exist only for display/serialisation and are never used by
  the game logic modelled here, so `Card` carries color and value only.
-/

namespace UNO

/-- Card colors: `CARD_COLORS` plus `'black'` used by wild cards (Card.js). -/
inductive Color
  | red
  | green
  | blue
  | yellow
  | black
deriving DecidableEq, Repr

/-- Card values `'0'..'9'`, `'skip'`, `'reverse'`, `'draw2'`, `'wild'`,
`'wild-draw4'` (constants.js `CARD_VALUES ++ WILD_CARDS`). -/
inductive Value
  | num (n : Nat)
  | skip
  | reverse
  | draw2
  | wild
  | wildDraw4
deriving DecidableEq, Repr

/-- A single UNO card (Card.js); the random display `id` is omitted. -/
structure Card where
  color : Color
  value : Value
deriving DecidableEq, Repr

/-- constants.js `CARD_COLORS`. -/
def CARD_COLORS : List Color := [.red, .green, .blue, .yellow]

/-- constants.js `WILD_CARDS`. -/
def WILD_CARDS : List Value := [.wild, .wildDraw4]

/-- Card.js `isWild`: `color === 'black' || WILD_CARDS.includes(value)`. -/
def Card.isWild (c : Card) : Bool :=
  decide (c.color = Color.black) || decide (c.value ∈ WILD_CARDS)

/-- Card.js `createDeck`, per-color section: one 0, two of each 1–9, two of
each skip/reverse/draw2. -/
def colorSection (color : Color) : List Card :=
  [⟨color, .num 0⟩]
    ++ (List.range 9).flatMap (fun i => [⟨color, .num (i + 1)⟩, ⟨color, .num (i + 1)⟩])
    ++ ([Value.skip, Value.reverse, Value.draw2].flatMap (fun v => [⟨color, v⟩, ⟨color, v⟩]))

/-- Card.js `createDeck`: the four color sections plus 4 wild and 4
wild-draw4 cards. -/
def createDeck : List Card :=
  CARD_COLORS.flatMap colorSection
    ++ (List.range 4).flatMap (fun _ => [⟨Color.black, .wild⟩, ⟨Color.black, .wildDraw4⟩])

/-- Deck.js: draw pile (`cards`) and `discardPile`, top of each at the head. -/
structure Deck where
  cards : List Card
  discardPile : List Card
deriving DecidableEq, Repr

/-- Deck.js constructor: a freshly created, shuffled 108-card deck with an
empty discard pile; `shuffle` is this construction's random permutation. -/
def Deck.new (shuffle : List Card → List Card) : Deck :=
  ⟨shuffle createDeck, []⟩

/-- Deck.js `drawCard`: pop the top of the draw pile, `null` when empty. -/
def Deck.drawCard : Deck → Option Card × Deck
  | ⟨[], disc⟩ => (none, ⟨[], disc⟩)
  | ⟨c :: rest, disc⟩ => (some c, ⟨rest, disc⟩)

/-- Deck.js `drawCards(count)`: draw up to `count` cards, stopping early when
the pile runs out. -/
def Deck.drawCards (d : Deck) : Nat → List Card × Deck
  | 0 => ([], d)
  | n + 1 =>
    match Deck.drawCard d with
    | (none, d') => ([], d')
    | (some c, d') => (c :: (Deck.drawCards d' n).1, (Deck.drawCards d' n).2)

/-- Deck.js `addToDiscardPile`. -/
def Deck.addToDiscardPile (d : Deck) (card : Card) : Deck :=
  ⟨d.cards, card :: d.discardPile⟩

/-- Deck.js `getTopDiscardCard`. -/
def Deck.getTopDiscardCard (d : Deck) : Option Card :=
  d.discardPile.head?

/-- Deck.js `needsReshuffle`: draw pile empty AND more than one discard. -/
def Deck.needsReshuffle (d : Deck) : Bool :=
  decide (d.cards.length = 0) && decide (d.discardPile.length > 1)

/-- Deck.js `reshuffleFromDiscard`: no-op with at most one discard; otherwise
pop the top discard card, make the shuffled remainder the new draw pile
(overwriting `cards`, which the callers only do when it is empty) and keep
just the retained top card in the discard pile. -/
def Deck.reshuffleFromDiscard (shuffle : List Card → List Card) (d : Deck) : Deck :=
  if d.discardPile.length ≤ 1 then d
  else
    match d.discardPile with
    | [] => d
    | topCard :: rest => ⟨shuffle rest, [topCard]⟩

/-- constants.js `GAME_PHASES`. -/
inductive Phase
  | waiting
  | playing
  | ended
  | paused
deriving DecidableEq, Repr

/-- Player.js fields used by the game logic (connection-status bookkeeping
fields that no claim touches are omitted). -/
structure Player where
  id : String
  socketId : String
  name : String
  isHost : Bool
  hand : List Card
  unoCalled : Bool
  ready : Bool
  score : Nat
  gamesPlayed : Nat
  gamesWon : Nat
deriving DecidableEq, Repr

/-- Player.js constructor (`pid` stands for the generated random id). -/
def newPlayer (pid socketId name : String) (isHost : Bool) : Player :=
  { id := pid, socketId := socketId, name := name, isHost := isHost,
    hand := [], unoCalled := false, ready := false,
    score := 0, gamesPlayed := 0, gamesWon := 0 }

/-- Player.js `addCards` (array case). -/
def Player.addCards (p : Player) (cards : List Card) : Player :=
  { p with hand := p.hand ++ cards }

/-- Player.js `getCard`: in-bounds lookup, `null` otherwise. -/
def Player.getCard (p : Player) (cardIndex : Nat) : Option Card :=
  p.hand.get? cardIndex

/-- Player.js `removeCard`: splice out the indexed card when in bounds. -/
def Player.removeCard (p : Player) (cardIndex : Nat) : Option Card × Player :=
  match p.hand.get? cardIndex with
  | some c => (some c, { p with hand := p.hand.eraseIdx cardIndex })
  | none => (none, p)

/-- Player.js `hasWon`: empty hand. -/
def Player.hasWon (p : Player) : Bool :=
  p.hand.isEmpty

/-- Player.js `callUno`: set the flag only with exactly one card and the flag
not yet set. -/
def Player.callUno (p : Player) : Player :=
  if p.hand.length = 1 ∧ p.unoCalled = false then { p with unoCalled := true } else p

/-- Player.js `resetForNewGame`. -/
def Player.resetForNewGame (p : Player) : Player :=
  { p with hand := [], unoCalled := false, ready := false }

/-- Player.js `calculateHandScore` per-card value. -/
def cardScore : Value → Nat
  | .num n => n
  | .skip => 20
  | .reverse => 20
  | .draw2 => 20
  | .wild => 50
  | .wildDraw4 => 50

/-- Player.js `calculateHandScore`. -/
def Player.calculateHandScore (p : Player) : Nat :=
  (p.hand.map (fun c => cardScore c.value)).sum

/-- Player.js `addGameStats`. -/
def Player.addGameStats (p : Player) (won : Bool) (score : Nat) : Player :=
  { p with gamesPlayed := p.gamesPlayed + 1,
           gamesWon := p.gamesWon + (if won then 1 else 0),
           score := p.score + score }

/-- helpers.js `getNextPlayerIndex`: `(current + direction + n) % n`.  The
current index is `Int` because the callers feed it a JS `findIndex` result,
which is `-1` when the player is missing; the JS `%` agrees with the
Euclidean one here because the dividend is nonnegative whenever
`current ≥ -1`, `direction ∈ {1, -1}` and `n ≥ 2`. -/
def getNextPlayerIndex (currentIndex : Int) (direction : Int) (playerCount : Nat) : Nat :=
  ((currentIndex + direction + (playerCount : Int)) % (playerCount : Int)).toNat

/-- GameRules.js `calculateNextPlayer`: one step, twice when skipping. -/
def calculateNextPlayer (currentPlayerIndex : Int) (direction : Int) (playerCount : Nat)
    (skipNext : Bool) : Nat :=
  let nextIndex := getNextPlayerIndex currentPlayerIndex direction playerCount
  if skipNext then getNextPlayerIndex (nextIndex : Int) direction playerCount
  else nextIndex

/-- GameRules.js `canPlayCard` core (both cards present): wilds always play;
against a wild top card match the current color; otherwise match color or
value.  `currentColor` is `Option` because the JS field starts as `null`. -/
def canPlayCard (cardToPlay topCard : Card) (currentColor : Option Color) : Bool :=
  if cardToPlay.isWild then true
  else if topCard.isWild then decide (some cardToPlay.color = currentColor)
  else decide (cardToPlay.color = topCard.color) || decide (cardToPlay.value = topCard.value)

/-- GameRules.js `canPlayCard` including the leading null checks
(`!cardToPlay || !topCard` gives `false`). -/
def canPlayCardOpt (cardToPlay topCard : Option Card) (currentColor : Option Color) : Bool :=
  match cardToPlay, topCard with
  | some c, some t => canPlayCard c t currentColor
  | _, _ => false

/-- GameRules.js `executeCardAction` result record. -/
structure CardAction where
  cardsToDraw : Nat
  skipNextPlayer : Bool
  reverseDirection : Bool
  colorChange : Option Color
  requiresChallenge : Bool
deriving DecidableEq, Repr

/-- GameRules.js `executeCardAction`: the action table.  Wild cards read the
GAME STATE's `chosenColor` (`gameState.chosenColor || 'red'`), not the color
passed with the play request. -/
def executeCardAction (card : Card) (stateChosenColor : Option Color) : CardAction :=
  match card.value with
  | .skip => ⟨0, true, false, none, false⟩
  | .reverse => ⟨0, false, true, none, false⟩
  | .draw2 => ⟨2, false, false, none, false⟩
  | .wild => ⟨0, false, false, some (stateChosenColor.getD .red), false⟩
  | .wildDraw4 => ⟨4, false, false, some (stateChosenColor.getD .red), true⟩
  | .num _ => ⟨0, false, false, none, false⟩

/-- GameRules.js `checkUnoValidity` result record. -/
structure UnoValidity where
  isValid : Bool
  shouldPenalize : Bool
  message : String
deriving DecidableEq, Repr

/-- GameRules.js `checkUnoValidity`. -/
def checkUnoValidity (p : Player) : UnoValidity :=
  if p.hand.length = 1 ∧ p.unoCalled = false then
    ⟨true, false, p.name ++ " called UNO!"⟩
  else if p.hand.length = 1 ∧ p.unoCalled = true then
    ⟨false, false, p.name ++ " already called UNO"⟩
  else if p.hand.length > 1 then
    ⟨false, true, p.name ++ " called UNO with too many cards!"⟩
  else
    ⟨false, false, ""⟩

/-- GameRules.js `checkWinCondition`: the first player in list order with an
empty hand, if any. -/
def checkWinCondition (players : List Player) : Option Player :=
  players.find? (·.hasWon)

/-- The per-room game state (`room.gameState` in GameManager).  The JS
`gameState.players` alias of `room.players` is represented by the single
`Room.players` list; the winner reference is recorded by its stable id. -/
structure GameState where
  phase : Phase
  currentPlayerIndex : Nat
  direction : Int
  currentColor : Option Color
  topCard : Option Card
  chosenColor : Option Color
  turnNumber : Nat
  deck : Deck
  winner : Option String
deriving DecidableEq, Repr

/-- A game room (GameManager `createRoom` record).  The host reference is
tracked by the host's socket id, which is what `startGame` compares, and
`settings.maxPlayers` is the only setting the engine reads. -/
structure Room where
  id : String
  hostSocketId : String
  players : List Player
  maxPlayers : Nat
  gameState : GameState
deriving DecidableEq, Repr

/-- constants.js `ERROR_MESSAGES` entries the modelled operations return. -/
def ERR_GAME_NOT_STARTED : String := "Game has not started yet"

def ERR_PLAYER_NOT_FOUND : String := "Player not found"

def ERR_NOT_YOUR_TURN : String := "It is not your turn"

def ERR_SERVER_ERROR : String := "Server error occurred"

def ERR_ROOM_FULL : String := "Room is full"

def ERR_GAME_ALREADY_STARTED : String := "Game has already started"

def ERR_INSUFFICIENT_PLAYERS : String := "Not enough players to start game"

def ERR_NO_CARDS : String := "No cards available to draw"

/-- constants.js `GAME_CONFIG.MIN_PLAYERS`. -/
def MIN_PLAYERS : Nat := 2

/-- constants.js `GAME_CONFIG.CARDS_PER_PLAYER`. -/
def CARDS_PER_PLAYER : Nat := 7

/-- constants.js `GAME_CONFIG.ROOM_ID_LENGTH`. -/
def ROOM_ID_LENGTH : Nat := 6

/-- JS `findIndex(p => p.id === playerId)` on a player list: the found index,
or `-1`. -/
def playerIndexById (players : List Player) (playerId : String) : Int :=
  match players.findIdx? (fun q => q.id == playerId) with
  | some i => (i : Int)
  | none => -1

/-- Lookup in the room's player list by socket id together with the position
(models `this.players.get(socketId)` resolving to the array element). -/
def findPlayerBySocket : List Player → String → Option (Nat × Player)
  | [], _ => none
  | p :: ps, sid =>
    if p.socketId == sid then some (0, p)
    else (findPlayerBySocket ps sid).map (fun ip => (ip.1 + 1, ip.2))

/-- GameRules.js `validateMove`: turn, phase, index bounds, playability, wild
color choice, color validity — in source order. -/
def validateMove (room : Room) (player : Player) (cardIndex : Nat)
    (chosenColor : Option Color) : Except String Card :=
  if (room.gameState.currentPlayerIndex : Int) ≠ playerIndexById room.players player.id then
    .error ERR_NOT_YOUR_TURN
  else if room.gameState.phase ≠ .playing then
    .error "Game not in playing phase"
  else
    match player.getCard cardIndex with
    | none => .error "Invalid card index"
    | some card =>
      if canPlayCardOpt (some card) room.gameState.topCard room.gameState.currentColor = false then
        .error "Cannot play this card"
      else if card.isWild ∧ chosenColor = none then
        .error "Must choose a color for wild card"
      else
        match chosenColor with
        | some cc => if cc ∉ CARD_COLORS then .error "Invalid color choice" else .ok card
        | none => .ok card

/-- GameRules.js `handleSpecialCards`: run the action table, flip direction on
reverse (treating reverse as skip with exactly 2 players), update
`currentColor` (the action's `colorChange` when set, else the card's own color
for non-wilds), and set the top card. -/
def handleSpecialCards (card : Card) (gs : GameState) (playersCount : Nat) :
    GameState × CardAction :=
  let action := executeCardAction card gs.chosenColor
  let direction' := if action.reverseDirection then gs.direction * (-1) else gs.direction
  let action' :=
    if action.reverseDirection ∧ playersCount = 2 then
      { action with skipNextPlayer := true }
    else action
  let currentColor' :=
    match action'.colorChange with
    | some c => some c
    | none => if card.isWild then gs.currentColor else some card.color
  ({ gs with direction := direction', currentColor := currentColor', topCard := some card },
   action')

/-- GameRules.js `handlePlayCard`: remove the indexed card from the player's
hand (the Player object lives at position `j` of the room's list, where the
socket lookup found it), push the card on the discard pile, apply
`handleSpecialCards`, and advance `currentPlayerIndex` (recomputed by
`findIndex` on the player's id) and `turnNumber`.  The computed
`action.cardsToDraw` is never applied to anyone, and the play request's
chosen color is not consulted — exactly as in the source.  The impossible
out-of-bounds branch (validated callers guarantee the index exists) leaves
the room unchanged. -/
def handlePlayCard (room : Room) (j : Nat) (player : Player) (cardIndex : Nat) : Room :=
  match player.hand.get? cardIndex with
  | none => room
  | some playedCard =>
    let p1 : Player := { player with hand := player.hand.eraseIdx cardIndex }
    let players1 := room.players.set j p1
    let gs1 := { room.gameState with
                 deck := room.gameState.deck.addToDiscardPile playedCard }
    let hsr := handleSpecialCards playedCard gs1 room.players.length
    let currentPlayerIndex := playerIndexById players1 player.id
    let nextIdx := calculateNextPlayer currentPlayerIndex hsr.1.direction
                     room.players.length hsr.2.skipNextPlayer
    { room with
      players := players1,
      gameState := { hsr.1 with currentPlayerIndex := nextIdx,
                                turnNumber := hsr.1.turnNumber + 1 } }

/-- GameManager `updatePlayerStats`: every player logs a finished game, the
winner logs a win, and each adds their hand score. -/
def updatePlayerStats (players : List Player) (winner : Player) : List Player :=
  players.map (fun p => p.addGameStats (p.id == winner.id) p.calculateHandScore)

/-- Outcome record of GameManager `playCard`. -/
structure PlayOutcome where
  success : Bool
  error : Option String
  winner : Option String
deriving DecidableEq, Repr

/-- GameManager `playCard`: phase check, player lookup, `validateMove`,
commit via `handlePlayCard`, then the win check (`phase := ended`, record the
winner, update stats). -/
def GameManager.playCard (room : Room) (sid : String) (cardIndex : Nat)
    (chosenColor : Option Color) : PlayOutcome × Room :=
  if room.gameState.phase ≠ .playing then
    (⟨false, some ERR_GAME_NOT_STARTED, none⟩, room)
  else
    match findPlayerBySocket room.players sid with
    | none => (⟨false, some ERR_PLAYER_NOT_FOUND, none⟩, room)
    | some (j, player) =>
      match validateMove room player cardIndex chosenColor with
      | .error e => (⟨false, some e, none⟩, room)
      | .ok _ =>
        let room1 := handlePlayCard room j player cardIndex
        match checkWinCondition room1.players with
        | some w =>
          (⟨true, none, some w.id⟩,
           { room1 with
             players := updatePlayerStats room1.players w,
             gameState := { room1.gameState with phase := .ended, winner := some w.id } })
        | none => (⟨true, none, none⟩, room1)

/-- Outcome record of GameManager `drawCard`. -/
structure DrawOutcome where
  success : Bool
  error : Option String
  drawnCard : Option Card
deriving DecidableEq, Repr

/-- GameManager `drawCard`: phase check, player lookup, turn check, reshuffle
when `needsReshuffle`, then draw ONE card; a `null` draw is reported as the
failure `'No cards available to draw'` (with the deck as left by the
reshuffle step); on success the card joins the hand and the turn advances by
exactly one (no skip).  (The source declares `const currentPlayerIndex`
twice in this function with the identical initialiser; we model the single
value it denotes.) -/
def GameManager.drawCard (shuffle : List Card → List Card) (room : Room) (sid : String) :
    DrawOutcome × Room :=
  if room.gameState.phase ≠ .playing then
    (⟨false, some ERR_GAME_NOT_STARTED, none⟩, room)
  else
    match findPlayerBySocket room.players sid with
    | none => (⟨false, some ERR_PLAYER_NOT_FOUND, none⟩, room)
    | some (j, player) =>
      if playerIndexById room.players player.id ≠ (room.gameState.currentPlayerIndex : Int) then
        (⟨false, some ERR_NOT_YOUR_TURN, none⟩, room)
      else
        let deck1 :=
          if room.gameState.deck.needsReshuffle then
            room.gameState.deck.reshuffleFromDiscard shuffle
          else room.gameState.deck
        match deck1.drawCard with
        | (none, deck2) =>
          (⟨false, some ERR_NO_CARDS, none⟩,
           { room with gameState := { room.gameState with deck := deck2 } })
        | (some c, deck2) =>
          let p1 := player.addCards [c]
          let nextIdx := calculateNextPlayer (playerIndexById room.players player.id)
                           room.gameState.direction room.players.length false
          (⟨true, none, some c⟩,
           { room with
             players := room.players.set j p1,
             gameState := { room.gameState with
                            deck := deck2,
                            currentPlayerIndex := nextIdx,
                            turnNumber := room.gameState.turnNumber + 1 } })

/-- Outcome record of GameManager `callUno`. -/
structure UnoOutcome where
  success : Bool
  error : Option String
  message : String
  penalized : Bool
deriving DecidableEq, Repr

/-- GameManager `callUno`: phase check, player lookup, `checkUnoValidity`;
a valid call sets the player's flag.  In the `shouldPenalize` branch the
source evaluates `GAME_RULES.UNO_PENALTY_CARDS`, but `GAME_RULES` is absent
from this module's `require` list, so a ReferenceError is thrown before any
card moves and the surrounding catch reports the generic server error. -/
def GameManager.callUno (room : Room) (sid : String) : UnoOutcome × Room :=
  if room.gameState.phase ≠ .playing then
    (⟨false, some ERR_GAME_NOT_STARTED, "", false⟩, room)
  else
    match findPlayerBySocket room.players sid with
    | none => (⟨false, some ERR_PLAYER_NOT_FOUND, "", false⟩, room)
    | some (i, player) =>
      let res := checkUnoValidity player
      if res.isValid then
        (⟨true, none, res.message, res.shouldPenalize⟩,
         { room with players := room.players.set i player.callUno })
      else if res.shouldPenalize then
        (⟨false, some ERR_SERVER_ERROR, "", false⟩, room)
      else
        (⟨true, none, res.message, res.shouldPenalize⟩, room)

/-- Deck.js `dealInitialCards` loop body: each player in seat order draws
`cardsPerPlayer` cards. -/
def dealLoop (d : Deck) (cardsPerPlayer : Nat) : List Player → Deck × List Player
  | [] => (d, [])
  | p :: ps =>
    ((dealLoop (d.drawCards cardsPerPlayer).2 cardsPerPlayer ps).1,
     p.addCards (d.drawCards cardsPerPlayer).1
       :: (dealLoop (d.drawCards cardsPerPlayer).2 cardsPerPlayer ps).2)

/-- Deck.js `dealInitialCards`: fails (without dealing) on an empty player
list or when the pile holds fewer than `players × cardsPerPlayer` cards. -/
def Deck.dealInitialCards (d : Deck) (players : List Player) (cardsPerPlayer : Nat) :
    Bool × Deck × List Player :=
  if players.isEmpty then (false, d, players)
  else if d.cards.length < players.length * cardsPerPlayer then (false, d, players)
  else
    (true, (dealLoop d cardsPerPlayer players).1, (dealLoop d cardsPerPlayer players).2)

/-- GameManager `initializeGame` first-card loop: draw, and while the drawn
card is wild push it on the discard pile and draw again; the final (non-wild)
card is also pushed on the discard pile and becomes the top card.  Returns
`none` in the card slot when the pile runs out (the JS dereferences `null`
there and the startGame catch turns it into a server error). -/
def flipFirstCard : List Card → List Card → Option Card × Deck
  | [], disc => (none, ⟨[], disc⟩)
  | c :: rest, disc =>
    if c.isWild then flipFirstCard rest (c :: disc)
    else (some c, ⟨rest, c :: disc⟩)

/-- GameManager `initializeGame`: reset every player, install a fresh
shuffled deck, deal `CARDS_PER_PLAYER` each, flip the starting card, and
initialise the turn fields.  A failure after the resets (deal shortage or the
first-card `null` dereference) is reported with the PARTIALLY MUTATED room,
exactly as the thrown-and-caught JS leaves it. -/
def initializeGame (shuffle : List Card → List Card) (room : Room) : Room × Option String :=
  let players0 := room.players.map Player.resetForNewGame
  let deck0 := Deck.new shuffle
  let room0 := { room with players := players0,
                           gameState := { room.gameState with deck := deck0 } }
  match deck0.dealInitialCards players0 CARDS_PER_PLAYER with
  | (false, d, ps) =>
    ({ room0 with players := ps, gameState := { room0.gameState with deck := d } },
     some "Failed to deal initial cards")
  | (true, deck1, players1) =>
    let room1 := { room0 with players := players1,
                              gameState := { room0.gameState with deck := deck1 } }
    match flipFirstCard deck1.cards deck1.discardPile with
    | (none, deck2) =>
      ({ room1 with gameState := { room1.gameState with deck := deck2 } },
       some "TypeError")
    | (some firstCard, deck2) =>
      ({ room1 with
         gameState := { room1.gameState with
                        deck := deck2,
                        topCard := some firstCard,
                        currentColor := some firstCard.color,
                        currentPlayerIndex := 0,
                        direction := 1,
                        turnNumber := 1,
                        winner := none,
                        chosenColor := none } },
       none)

/-- Outcome record of GameManager `startGame`. -/
structure StartOutcome where
  success : Bool
  error : Option String
deriving DecidableEq, Repr

/-- GameManager `startGame`: host/min-players/phase checks, then
`initializeGame`; on success the phase becomes `playing`.  An exception
inside `initializeGame` is caught and reported as the generic server error,
KEEPING the partial mutation. -/
def GameManager.startGame (shuffle : List Card → List Card) (room : Room)
    (hostSocketId : String) : StartOutcome × Room :=
  if room.hostSocketId ≠ hostSocketId then
    (⟨false, some "Only the host can start the game"⟩, room)
  else if room.players.length < MIN_PLAYERS then
    (⟨false, some ERR_INSUFFICIENT_PLAYERS⟩, room)
  else if room.gameState.phase ≠ .waiting then
    (⟨false, some ERR_GAME_ALREADY_STARTED⟩, room)
  else
    match initializeGame shuffle room with
    | (room1, some _) => (⟨false, some ERR_SERVER_ERROR⟩, room1)
    | (room1, none) =>
      (⟨true, none⟩,
       { room1 with gameState := { room1.gameState with phase := .playing } })

/-- JS `String.prototype.toLowerCase`, modelled character-wise (the engine
only lowercases player names for the case-insensitive duplicate check). -/
def jsToLower (s : String) : String :=
  String.mk (s.data.map Char.toLower)

/-- Outcome record of GameManager `joinRoom`. -/
structure JoinOutcome where
  success : Bool
  error : Option String
deriving DecidableEq, Repr

/-- GameManager `joinRoom`: capacity, phase and case-insensitive name checks,
then append the new player (`pid` models the generated player id). -/
def GameManager.joinRoom (room : Room) (pid sid name : String) : JoinOutcome × Room :=
  if room.players.length ≥ room.maxPlayers then
    (⟨false, some ERR_ROOM_FULL⟩, room)
  else if room.gameState.phase ≠ .waiting then
    (⟨false, some ERR_GAME_ALREADY_STARTED⟩, room)
  else if room.players.any (fun p => jsToLower p.name == jsToLower name) then
    (⟨false, some "Player name already taken"⟩, room)
  else
    (⟨true, none⟩, { room with players := room.players ++ [newPlayer pid sid name false] })

/-- helpers.js `generateRoomId` character alphabet. -/
def roomIdChars : List Char := "ABCDEFGHIJKLMNOPQRSTUVWXYZ0123456789".toList

/-- helpers.js `generateRoomId`: `ROOM_ID_LENGTH` independent uniform draws
from the 36-character alphabet; `rand i` is the i-th random index. -/
def generateRoomId (rand : Nat → Fin 36) : String :=
  String.mk ((List.range ROOM_ID_LENGTH).map (fun i => roomIdChars.getD (rand i).val 'A'))

/-- The GameManager's live-room registry `this.rooms` (a JS `Map`), as an
association list in insertion order. -/
def RoomsMap : Type := List (String × Room)

/-- JS `Map.prototype.set`: replace the value at an existing key in place,
else append. -/
def mapSet : List (String × Room) → String → Room → List (String × Room)
  | [], k, v => [(k, v)]
  | (k', v') :: rest, k, v =>
    if k' == k then (k, v) :: rest else (k', v') :: mapSet rest k v

/-- JS `Map.prototype.get`. -/
def mapGet : List (String × Room) → String → Option Room
  | [], _ => none
  | (k', v') :: rest, k => if k' == k then some v' else mapGet rest k

/-- The room record GameManager `createRoom` builds: the host as sole player,
phase `waiting`, a fresh shuffled deck, and the caller-supplied `maxPlayers`
(the raw client `settings` spread overrides the defaulted fields, so a
provided value is taken as-is, unvalidated). -/
def freshRoom (roomId hostPid hostSocketId hostName : String) (maxPlayers : Nat)
    (shuffle : List Card → List Card) : Room :=
  { id := roomId,
    hostSocketId := hostSocketId,
    players := [newPlayer hostPid hostSocketId hostName true],
    maxPlayers := maxPlayers,
    gameState := { phase := .waiting, currentPlayerIndex := 0, direction := 1,
                   currentColor := none, topCard := none, chosenColor := none,
                   turnNumber := 0, deck := Deck.new shuffle, winner := none } }

/-- GameManager `createRoom`: generate a room id (NO uniqueness check against
the registry) and `rooms.set` the new room under it. -/
def GameManager.createRoom (rand : Nat → Fin 36) (shuffle : List Card → List Card)
    (rooms : List (String × Room)) (hostPid hostSocketId hostName : String)
    (maxPlayers : Nat) : String × List (String × Room) :=
  let roomId := generateRoomId rand
  (roomId, mapSet rooms roomId (freshRoom roomId hostPid hostSocketId hostName maxPlayers shuffle))

/-- Total number of cards a room's players hold. -/
def sumHands (players : List Player) : Nat :=
  (players.map (fun p => p.hand.length)).sum

/-- Cards in the deck (draw pile plus discard pile). -/
def Deck.size (d : Deck) : Nat :=
  d.cards.length + d.discardPile.length

/-- The conserved quantity of claim C1. -/
def totalCards (room : Room) : Nat :=
  room.gameState.deck.size + sumHands room.players

/-- States reachable through the committed room operations: a successful
`startGame` commit, then any sequence of `playCard`, `drawCard` (which
includes the guarded reshuffle) and `callUno` calls.  Each shuffling step
carries its own random permutation, constrained only to preserve length (what
Fisher–Yates guarantees). -/
inductive Reaches : Room → Prop
  | start (shuffle : List Card → List Card)
      (hs : ∀ l, (shuffle l).length = l.length) (room : Room) (hostSid : String) :
      (GameManager.startGame shuffle room hostSid).1.success = true →
      Reaches (GameManager.startGame shuffle room hostSid).2
  | play (room : Room) (sid : String) (cardIndex : Nat) (chosenColor : Option Color) :
      Reaches room → Reaches (GameManager.playCard room sid cardIndex chosenColor).2
  | draw (shuffle : List Card → List Card)
      (hs : ∀ l, (shuffle l).length = l.length) (room : Room) (sid : String) :
      Reaches room → Reaches (GameManager.drawCard shuffle room sid).2
  | uno (room : Room) (sid : String) :
      Reaches room → Reaches (GameManager.callUno room sid).2

/-! ## Concrete fixtures for closed-instance checks

Rooms are built by the modelled constructors (`freshRoom`, `joinRoom`) or as
explicit mid-game states of the shape the engine itself produces. -/

/-- A two-player room in the lobby, built by `createRoom` + `joinRoom` with
the identity permutation as the deck shuffle. -/
def waitingRoom2 : Room :=
  (GameManager.joinRoom (freshRoom "ROOM01" "idA" "sA" "Alice" 4 id) "idB" "sB" "Bob").2

/-- Alice mid-game holding a wild-draw4 and a red 5. -/
def c4Alice : Player :=
  { newPlayer "idA" "sA" "Alice" true with
    hand := [⟨.black, .wildDraw4⟩, ⟨.red, .num 5⟩] }

/-- Bob mid-game holding three blue number cards. -/
def c4Bob : Player :=
  { newPlayer "idB" "sB" "Bob" false with
    hand := [⟨.blue, .num 3⟩, ⟨.blue, .num 4⟩, ⟨.blue, .num 5⟩] }

/-- A two-player playing-phase state: Alice to move, green 7 on top, green
the current color, two yellow cards left in the draw pile. -/
def c4Room : Room :=
  { id := "ROOM01", hostSocketId := "sA", players := [c4Alice, c4Bob], maxPlayers := 4,
    gameState := { phase := .playing, currentPlayerIndex := 0, direction := 1,
                   currentColor := some .green, topCard := some ⟨.green, .num 7⟩,
                   chosenColor := none, turnNumber := 1,
                   deck := ⟨[⟨.yellow, .num 9⟩, ⟨.yellow, .num 8⟩], [⟨.green, .num 7⟩]⟩,
                   winner := none } }

/-- The same playing state with the card supply exhausted: empty draw pile
and only the active card in the discard pile. -/
def c5Room : Room :=
  { c4Room with gameState := { c4Room.gameState with deck := ⟨[], [⟨.green, .num 7⟩]⟩ } }

/-- Alice one card from winning, holding a green 5 that matches the top
card. -/
def c6Alice : Player :=
  { newPlayer "idA" "sA" "Alice" true with hand := [⟨.green, .num 5⟩] }

/-- The playing state of `c4Room` with Alice about to empty her hand. -/
def c6Room : Room :=
  { c4Room with players := [c6Alice, c4Bob] }

/-- A room whose host allowed 16 seats (the raw client `settings.maxPlayers`
is stored unvalidated) and that 15 further players have joined. -/
def room16 : Room :=
  (List.range 15).foldl
    (fun r k => (GameManager.joinRoom r (toString k) ("s" ++ toString k) ("P" ++ toString k)).2)
    (freshRoom "GAMERM" "idH" "sH" "Host" 16 id)

/-- A random tape that always picks index 0, so `generateRoomId` yields
`"AAAAAA"`. -/
def rand0 : Nat → Fin 36 := fun _ => ⟨0, by omega⟩

/-- A pre-existing live room registered under the code `"AAAAAA"`. -/
def oldRoom : Room := freshRoom "AAAAAA" "idOld" "sOld" "OldHost" 4 id

/-! ## Supporting lemmas -/

theorem eraseIdx_len {α : Type} :
    ∀ (l : List α) (i : Nat) (c : α), l.get? i = some c →
      (l.eraseIdx i).length + 1 = l.length
  | [], i, c, h => by simp at h
  | a :: l, 0, c, h => by simp [List.eraseIdx]
  | a :: l, i + 1, c, h => by
    simpa [List.eraseIdx] using eraseIdx_len l i c (by simpa using h)

theorem sumHands_cons (p : Player) (l : List Player) :
    sumHands (p :: l) = p.hand.length + sumHands l := by
  simp [sumHands]

theorem sumHands_set :
    ∀ (l : List Player) (i : Nat) (p q : Player), l.get? i = some q →
      sumHands (l.set i p) + q.hand.length = sumHands l + p.hand.length
  | [], i, p, q, h => by simp at h
  | a :: l, 0, p, q, h => by
    simp only [List.get?] at h
    cases h
    simp [sumHands_cons, List.set]
    omega
  | a :: l, i + 1, p, q, h => by
    have := sumHands_set l i p q (by simpa using h)
    simp only [List.set, sumHands_cons]
    omega

theorem findPlayerBySocket_get? :
    ∀ (l : List Player) (sid : String) (j : Nat) (p : Player),
      findPlayerBySocket l sid = some (j, p) → l.get? j = some p
  | [], sid, j, p, h => by simp [findPlayerBySocket] at h
  | a :: l, sid, j, p, h => by
    by_cases ha : (a.socketId == sid) = true
    · simp [findPlayerBySocket, ha] at h
      obtain ⟨h1, h2⟩ := h
      subst h1; subst h2; rfl
    · simp only [findPlayerBySocket, ha, if_false, Bool.false_eq_true] at h
      match hmap : findPlayerBySocket l sid with
      | none => rw [hmap] at h; simp at h
      | some (i, q) =>
        rw [hmap] at h
        simp only [Option.map_some', Option.some.injEq, Prod.mk.injEq] at h
        obtain ⟨hj, hp⟩ := h
        subst hj; subst hp
        simpa using findPlayerBySocket_get? l sid i q hmap

theorem drawCards_acc (n : Nat) :
    ∀ (d : Deck), ((d.drawCards n).1).length + ((d.drawCards n).2).cards.length
        = d.cards.length ∧
      ((d.drawCards n).2).discardPile = d.discardPile := by
  induction n with
  | zero => intro d; simp [Deck.drawCards]
  | succ n ih =>
    intro d
    match d with
    | ⟨[], disc⟩ => simp [Deck.drawCards, Deck.drawCard]
    | ⟨c :: rest, disc⟩ =>
      have h := ih ⟨rest, disc⟩
      have h1 := h.1
      have hr : (Deck.mk rest disc).cards.length = rest.length := rfl
      rw [hr] at h1
      simp only [Deck.drawCards, Deck.drawCard, List.length_cons]
      exact ⟨by omega, h.2⟩

theorem dealLoop_acc (k : Nat) :
    ∀ (ps : List Player) (d : Deck),
      (dealLoop d k ps).1.cards.length + sumHands (dealLoop d k ps).2
          = d.cards.length + sumHands ps ∧
        (dealLoop d k ps).1.discardPile = d.discardPile
  | [], d => by simp [dealLoop]
  | p :: ps, d => by
    have hdraw := drawCards_acc k d
    have hrec := dealLoop_acc k ps (d.drawCards k).2
    simp only [dealLoop, sumHands_cons, Player.addCards, List.length_append]
    refine ⟨by omega, by rw [hrec.2, hdraw.2]⟩

theorem flipFirst_acc :
    ∀ (cs disc : List Card),
      ((flipFirstCard cs disc).2).cards.length + ((flipFirstCard cs disc).2).discardPile.length
        = cs.length + disc.length
  | [], disc => by simp [flipFirstCard]
  | c :: rest, disc => by
    by_cases hw : c.isWild = true
    · have := flipFirst_acc rest (c :: disc)
      simp only [flipFirstCard, hw, if_true, List.length_cons] at this ⊢
      omega
    · simp only [flipFirstCard, hw]
      simp
      omega

theorem sumHands_reset (l : List Player) :
    sumHands (l.map Player.resetForNewGame) = 0 := by
  induction l with
  | nil => simp [sumHands]
  | cons p ps ih => simp [sumHands_cons, Player.resetForNewGame, ih]

theorem sumHands_updateStats (l : List Player) (w : Player) :
    sumHands (updatePlayerStats l w) = sumHands l := by
  induction l with
  | nil => simp [sumHands, updatePlayerStats]
  | cons p ps ih =>
    have hh : (Player.addGameStats p (p.id == w.id) p.calculateHandScore).hand = p.hand := rfl
    simp only [updatePlayerStats, List.map_cons, sumHands_cons] at ih ⊢
    rw [hh, ih]

theorem handleSpecialCards_deck (card : Card) (gs : GameState) (n : Nat) :
    (handleSpecialCards card gs n).1.deck = gs.deck := rfl

theorem handleSpecialCards_turnNumber (card : Card) (gs : GameState) (n : Nat) :
    (handleSpecialCards card gs n).1.turnNumber = gs.turnNumber := rfl

theorem reshuffle_size_of_cards_nil (shuffle : List Card → List Card)
    (hs : ∀ l, (shuffle l).length = l.length) (d : Deck) (hnil : d.cards = []) :
    (d.reshuffleFromDiscard shuffle).size = d.size := by
  unfold Deck.reshuffleFromDiscard
  by_cases hle : d.discardPile.length ≤ 1
  · simp [hle]
  · rw [if_neg hle]
    match hd : d.discardPile with
    | [] => simp [hd] at hle
    | t :: rest =>
      simp [Deck.size, hnil, hs, hd]

theorem mapGet_mapSet_self :
    ∀ (rooms : List (String × Room)) (k : String) (v : Room),
      mapGet (mapSet rooms k v) k = some v
  | [], k, v => by simp [mapSet, mapGet]
  | (k', v') :: rest, k, v => by
    by_cases hk : (k' == k) = true
    · simp [mapSet, mapGet, hk]
    · simp [mapSet, mapGet, hk]
      exact mapGet_mapSet_self rest k v

theorem drawCard_none_inv {d d2 : Deck} (h : d.drawCard = (none, d2)) :
    d2 = d ∧ d.cards = [] := by
  match d with
  | ⟨[], disc⟩ =>
    simp only [Deck.drawCard, Prod.mk.injEq] at h
    exact ⟨h.2.symm, rfl⟩
  | ⟨c :: rest, disc⟩ => simp [Deck.drawCard] at h

theorem drawCard_some_inv {d d2 : Deck} {c : Card} (h : d.drawCard = (some c, d2)) :
    d.cards = c :: d2.cards ∧ d2.discardPile = d.discardPile := by
  match d with
  | ⟨[], disc⟩ => simp [Deck.drawCard] at h
  | ⟨b :: rest, disc⟩ =>
    simp only [Deck.drawCard, Prod.mk.injEq, Option.some.injEq] at h
    obtain ⟨hc, hd⟩ := h
    subst hc
    rw [← hd]
    exact ⟨rfl, rfl⟩

theorem dealInitialCards_false {d d' : Deck} {players ps : List Player} {k : Nat}
    (h : d.dealInitialCards players k = (false, d', ps)) : d' = d ∧ ps = players := by
  unfold Deck.dealInitialCards at h
  split at h
  · simp only [Prod.mk.injEq] at h
    exact ⟨h.2.1.symm, h.2.2.symm⟩
  · split at h
    · simp only [Prod.mk.injEq] at h
      exact ⟨h.2.1.symm, h.2.2.symm⟩
    · simp at h

theorem dealInitialCards_true {d d' : Deck} {players ps : List Player} {k : Nat}
    (h : d.dealInitialCards players k = (true, d', ps)) :
    d' = (dealLoop d k players).1 ∧ ps = (dealLoop d k players).2 := by
  unfold Deck.dealInitialCards at h
  split at h
  · simp at h
  · split at h
    · simp at h
    · simp only [Prod.mk.injEq] at h
      exact ⟨h.2.1.symm, h.2.2.symm⟩

theorem needsReshuffle_cards_nil {d : Deck} (h : d.needsReshuffle = true) : d.cards = [] := by
  simp only [Deck.needsReshuffle, Bool.and_eq_true, decide_eq_true_eq] at h
  exact List.length_eq_zero.mp h.1

theorem callUno_hand_length (p : Player) : p.callUno.hand.length = p.hand.length := by
  unfold Player.callUno
  split <;> rfl

theorem find?_isEmpty_updateStats (l : List Player) (w : Player) :
    (updatePlayerStats l w).find? (fun p => p.hand.isEmpty)
      = (l.find? (fun p => p.hand.isEmpty)).map
          (fun p => p.addGameStats (p.id == w.id) p.calculateHandScore) := by
  induction l with
  | nil => rfl
  | cons p ps ih =>
    have hh : (Player.addGameStats p (p.id == w.id) p.calculateHandScore).hand = p.hand := rfl
    by_cases hp : p.hand.isEmpty = true
    · simp only [updatePlayerStats, List.map_cons, List.find?_cons]
      rw [hh, hp]
      rfl
    · have hp' : p.hand.isEmpty = false := by simpa using hp
      simp only [updatePlayerStats, List.map_cons, List.find?_cons]
      rw [hh, hp']
      simpa [updatePlayerStats] using ih

theorem reshuffle_cards_ne_nil (shuffle : List Card → List Card)
    (hs : ∀ l, (shuffle l).length = l.length) (d : Deck)
    (hns : d.needsReshuffle = true) :
    (d.reshuffleFromDiscard shuffle).cards ≠ [] := by
  have hgt : d.discardPile.length > 1 := by
    simp only [Deck.needsReshuffle, Bool.and_eq_true, decide_eq_true_eq] at hns
    exact hns.2
  have hle : ¬ d.discardPile.length ≤ 1 := by omega
  unfold Deck.reshuffleFromDiscard
  rw [if_neg hle]
  match hd : d.discardPile with
  | [] => rw [hd] at hgt; simp at hgt
  | t :: rest =>
    intro hnil
    have := congrArg List.length hnil
    rw [hs rest] at this
    rw [hd] at hgt
    simp at this
    subst this
    simp at hgt

/-- Every failure outcome of `playCard` leaves the room untouched. -/
theorem playCard_failure_unchanged (room : Room) (sid : String) (cardIndex : Nat)
    (cc : Option Color) (hfail : (GameManager.playCard room sid cardIndex cc).1.success = false) :
    (GameManager.playCard room sid cardIndex cc).2 = room := by
  revert hfail
  unfold GameManager.playCard
  split
  · intro _; rfl
  · split
    · intro _; rfl
    · split
      · intro _; rfl
      · dsimp only
        split
        · intro h; simp at h
        · intro h; simp at h

/-- Every failure outcome of `drawCard` leaves the room untouched (given a
length-preserving shuffle: a fired reshuffle always leaves a card to draw, so
the empty-draw failure only happens when nothing was reshuffled). -/
theorem drawCard_failure_unchanged (shuffle : List Card → List Card)
    (hs : ∀ l, (shuffle l).length = l.length) (room : Room) (sid : String)
    (hfail : (GameManager.drawCard shuffle room sid).1.success = false) :
    (GameManager.drawCard shuffle room sid).2 = room := by
  revert hfail
  unfold GameManager.drawCard
  split
  · intro _; rfl
  · split
    · intro _; rfl
    · split
      · intro _; rfl
      · dsimp only
        split
        · next deck2 hdraw =>
          intro _
          obtain ⟨hd2, hnil⟩ := drawCard_none_inv hdraw
          subst hd2
          by_cases hns : room.gameState.deck.needsReshuffle = true
          · exfalso
            rw [if_pos hns] at hnil
            exact reshuffle_cards_ne_nil shuffle hs room.gameState.deck hns hnil
          · rw [if_neg hns]
        · next c deck2 hdraw =>
          intro h; simp at h

/-- Every failure outcome of `callUno` leaves the room untouched. -/
theorem callUno_failure_unchanged (room : Room) (sid : String)
    (hfail : (GameManager.callUno room sid).1.success = false) :
    (GameManager.callUno room sid).2 = room := by
  revert hfail
  unfold GameManager.callUno
  split
  · intro _; rfl
  · split
    · intro _; rfl
    · dsimp only
      split
      · intro h; simp at h
      · split
        · intro _; rfl
        · intro h; simp at h

/-- Every failure outcome of `joinRoom` leaves the room untouched. -/
theorem joinRoom_failure_unchanged (room : Room) (pid sid name : String)
    (hfail : (GameManager.joinRoom room pid sid name).1.success = false) :
    (GameManager.joinRoom room pid sid name).2 = room := by
  revert hfail
  unfold GameManager.joinRoom
  split
  · intro _; rfl
  · split
    · intro _; rfl
    · split
      · intro _; rfl
      · intro h; simp at h

/-- `playCard` on a room that is not in the playing phase fails immediately
with the phase error, untouched room. -/
theorem playCard_not_playing (r : Room) (h : r.gameState.phase ≠ Phase.playing)
    (sid : String) (cardIndex : Nat) (cc : Option Color) :
    GameManager.playCard r sid cardIndex cc
      = (⟨false, some ERR_GAME_NOT_STARTED, none⟩, r) := by
  unfold GameManager.playCard
  rw [if_pos h]

/-- `drawCard` on a room that is not in the playing phase fails immediately
with the phase error, untouched room. -/
theorem drawCard_not_playing (shuffle : List Card → List Card) (r : Room)
    (h : r.gameState.phase ≠ Phase.playing) (sid : String) :
    GameManager.drawCard shuffle r sid
      = (⟨false, some ERR_GAME_NOT_STARTED, none⟩, r) := by
  unfold GameManager.drawCard
  rw [if_pos h]

/-! ## Conservation of the 108 cards by each committed operation -/

theorem handlePlayCard_total (room : Room) (j : Nat) (player : Player) (cardIndex : Nat)
    (hj : room.players.get? j = some player) :
    totalCards (handlePlayCard room j player cardIndex) = totalCards room := by
  unfold handlePlayCard
  match hc : player.hand.get? cardIndex with
  | none => rfl
  | some playedCard =>
    have hlen := eraseIdx_len player.hand cardIndex playedCard hc
    have hset := sumHands_set room.players j
      { player with hand := player.hand.eraseIdx cardIndex } player hj
    have hp1 : ({ player with hand := player.hand.eraseIdx cardIndex } : Player).hand.length
        = (player.hand.eraseIdx cardIndex).length := rfl
    rw [hp1] at hset
    simp only [totalCards, Deck.size, handleSpecialCards_deck, Deck.addToDiscardPile,
      List.length_cons]
    omega

theorem playCard_total (room : Room) (sid : String) (cardIndex : Nat) (cc : Option Color) :
    totalCards (GameManager.playCard room sid cardIndex cc).2 = totalCards room := by
  unfold GameManager.playCard
  split
  · rfl
  · split
    · rfl
    · next j player heq =>
      split
      · rfl
      · have hj := findPlayerBySocket_get? room.players sid j player heq
        have h1 := handlePlayCard_total room j player cardIndex hj
        dsimp only
        split
        · next w _ =>
          simp only [totalCards, Deck.size, sumHands_updateStats]
          simpa [totalCards, Deck.size] using h1
        · exact h1

theorem drawCard_total (shuffle : List Card → List Card)
    (hs : ∀ l, (shuffle l).length = l.length) (room : Room) (sid : String) :
    totalCards (GameManager.drawCard shuffle room sid).2 = totalCards room := by
  unfold GameManager.drawCard
  split
  · rfl
  · split
    · rfl
    · next j player heq =>
      split
      · rfl
      · dsimp only
        have hj := findPlayerBySocket_get? room.players sid j player heq
        have hsize :
            (if room.gameState.deck.needsReshuffle then
              room.gameState.deck.reshuffleFromDiscard shuffle
            else room.gameState.deck).size = room.gameState.deck.size := by
          by_cases hns : room.gameState.deck.needsReshuffle = true
          · rw [if_pos hns]
            exact reshuffle_size_of_cards_nil shuffle hs room.gameState.deck
              (needsReshuffle_cards_nil hns)
          · rw [if_neg hns]
        split
        · next deck2 hdraw =>
          obtain ⟨hd2, _⟩ := drawCard_none_inv hdraw
          subst hd2
          simp only [totalCards, Deck.size] at hsize ⊢
          omega
        · next c deck2 hdraw =>
          obtain ⟨hcards, hdisc⟩ := drawCard_some_inv hdraw
          have hset := sumHands_set room.players j (player.addCards [c]) player hj
          have hadd : (player.addCards [c]).hand.length = player.hand.length + 1 := by
            simp [Player.addCards]
          rw [hadd] at hset
          have hlen : deck2.cards.length + 1
              = (if room.gameState.deck.needsReshuffle then
                  room.gameState.deck.reshuffleFromDiscard shuffle
                else room.gameState.deck).cards.length := by
            rw [hcards]; simp
          simp only [totalCards, Deck.size] at hsize ⊢
          rw [hdisc] at *
          omega

theorem callUno_total (room : Room) (sid : String) :
    totalCards (GameManager.callUno room sid).2 = totalCards room := by
  unfold GameManager.callUno
  split
  · rfl
  · split
    · rfl
    · next i player heq =>
      dsimp only
      split
      · have hj := findPlayerBySocket_get? room.players sid i player heq
        have hset := sumHands_set room.players i player.callUno player hj
        rw [callUno_hand_length] at hset
        simp only [totalCards, Deck.size]
        omega
      · split
        · rfl
        · rfl

theorem initializeGame_total (shuffle : List Card → List Card)
    (hs : ∀ l, (shuffle l).length = l.length) (room : Room) :
    totalCards (initializeGame shuffle room).1 = 108 := by
  have hdeck0 : (Deck.new shuffle).cards.length = 108 := by
    simpa [Deck.new, hs] using (by decide : createDeck.length = 108)
  have hreset := sumHands_reset room.players
  unfold initializeGame
  dsimp only
  split
  · next d ps heq =>
    obtain ⟨hd, hps⟩ := dealInitialCards_false heq
    subst hd; subst hps
    simp only [totalCards, Deck.size, Deck.new, List.length_nil]
    simp only [Deck.new] at hdeck0
    omega
  · next deck1 players1 heq =>
    obtain ⟨hd1, hps1⟩ := dealInitialCards_true heq
    have hloop := dealLoop_acc CARDS_PER_PLAYER (room.players.map Player.resetForNewGame)
      (Deck.new shuffle)
    have hdisc : (dealLoop (Deck.new shuffle) CARDS_PER_PLAYER
        (room.players.map Player.resetForNewGame)).1.discardPile = [] := hloop.2
    split
    · next deck2 heq2 =>
      have hflip := flipFirst_acc deck1.cards deck1.discardPile
      have h2 : (flipFirstCard deck1.cards deck1.discardPile).2 = deck2 :=
        congrArg Prod.snd heq2
      rw [h2] at hflip
      subst hd1; subst hps1
      simp only [totalCards, Deck.size]
      rw [hdisc] at hflip
      simp only [List.length_nil] at hflip
      have hloop1 := hloop.1
      omega
    · next firstCard deck2 heq2 =>
      have hflip := flipFirst_acc deck1.cards deck1.discardPile
      have h2 : (flipFirstCard deck1.cards deck1.discardPile).2 = deck2 :=
        congrArg Prod.snd heq2
      rw [h2] at hflip
      subst hd1; subst hps1
      simp only [totalCards, Deck.size]
      rw [hdisc] at hflip
      simp only [List.length_nil] at hflip
      have hloop1 := hloop.1
      omega

theorem startGame_success_total (shuffle : List Card → List Card)
    (hs : ∀ l, (shuffle l).length = l.length) (room : Room) (hostSid : String)
    (hsucc : (GameManager.startGame shuffle room hostSid).1.success = true) :
    totalCards (GameManager.startGame shuffle room hostSid).2 = 108 := by
  unfold GameManager.startGame at hsucc ⊢
  split at hsucc
  · simp at hsucc
  · split at hsucc
    · simp at hsucc
    · split at hsucc
      · simp at hsucc
      · next h1 h2 h3 =>
        rw [if_neg h1, if_neg h2, if_neg h3]
        have hinit := initializeGame_total shuffle hs room
        split
        · next room1 e heq =>
          rw [heq] at hinit
          exact hinit
        · next room1 heq =>
          rw [heq] at hinit
          simpa [totalCards, Deck.size] using hinit

/-! ## Theorems -/

/-- C2: every deck produced by `createDeck` has exactly 108 cards: 100
colored ones — for each of the four colors 25 cards, namely one 0, two of
each 1–9, and two of each skip/reverse/draw2 — plus 4 wild and 4 wild-draw4
cards. -/
theorem createDeck_composition :
    createDeck.length = 108 ∧
    (createDeck.filter (fun c => !c.isWild)).length = 100 ∧
    (CARD_COLORS.all (fun col =>
        (createDeck.filter (fun c => decide (c.color = col))).length == 25 &&
        (createDeck.filter
          (fun c => decide (c.color = col) && decide (c.value = Value.num 0))).length == 1 &&
        ((List.range 9).all (fun k =>
          (createDeck.filter
            (fun c => decide (c.color = col) && decide (c.value = Value.num (k + 1)))).length
            == 2)) &&
        ([Value.skip, Value.reverse, Value.draw2].all (fun v =>
          (createDeck.filter
            (fun c => decide (c.color = col) && decide (c.value = v))).length == 2))) = true) ∧
    (createDeck.filter (fun c => decide (c.value = Value.wild))).length = 4 ∧
    (createDeck.filter (fun c => decide (c.value = Value.wildDraw4))).length = 4 := by
  decide

/-- C3: `canPlayCard` is true for every wild card; for a non-wild card on a
non-wild top card it is exactly "same color or same value"; for a non-wild
card on a wild top card it is exactly "card color equals the current
color". -/
theorem canPlayCard_characterisation (c top : Card) (col : Color) :
    (c.isWild = true → canPlayCard c top (some col) = true) ∧
    (c.isWild = false → top.isWild = false →
      canPlayCard c top (some col)
        = (decide (c.color = top.color) || decide (c.value = top.value))) ∧
    (c.isWild = false → top.isWild = true →
      canPlayCard c top (some col) = decide (c.color = col)) := by
  refine ⟨fun hw => ?_, fun hw ht => ?_, fun hw ht => ?_⟩
  · simp [canPlayCard, hw]
  · simp [canPlayCard, hw, ht]
  · simp [canPlayCard, hw, ht]

/-- Witness for `canPlayCard_characterisation`: a green 3 on a green skip is
playable by color, not playable on a wild top card with current color red. -/
theorem canPlayCard_characterisation_witness :
    Card.isWild ⟨Color.green, Value.num 3⟩ = false ∧
    Card.isWild ⟨Color.green, Value.skip⟩ = false ∧
    Card.isWild ⟨Color.black, Value.wild⟩ = true ∧
    canPlayCard ⟨Color.green, Value.num 3⟩ ⟨Color.green, Value.skip⟩ (some Color.red)
      = (decide ((⟨Color.green, Value.num 3⟩ : Card).color = Color.green)
          || decide ((⟨Color.green, Value.num 3⟩ : Card).value = Value.skip)) ∧
    canPlayCard ⟨Color.green, Value.num 3⟩ ⟨Color.black, Value.wild⟩ (some Color.red)
      = decide (Color.green = Color.red) := by
  refine ⟨by decide, by decide, by decide, ?_, ?_⟩
  · exact (canPlayCard_characterisation ⟨Color.green, Value.num 3⟩
      ⟨Color.green, Value.skip⟩ Color.red).2.1 (by decide) (by decide)
  · exact (canPlayCard_characterisation ⟨Color.green, Value.num 3⟩
      ⟨Color.black, Value.wild⟩ Color.red).2.2 (by decide) (by decide)

/-- C7: `needsReshuffle` holds exactly when the draw pile is empty and the
discard pile has more than one card; `reshuffleFromDiscard` is a no-op with
at most one discard card, and otherwise preserves the previous top discard
card as the sole discard card and produces a draw pile of size one less than
the prior discard pile (for any length-preserving shuffle permutation). -/
theorem reshuffle_characterisation (shuffle : List Card → List Card)
    (hs : ∀ l, (shuffle l).length = l.length) (d : Deck) :
    (d.needsReshuffle = true ↔ (d.cards.length = 0 ∧ d.discardPile.length > 1)) ∧
    (d.discardPile.length ≤ 1 → d.reshuffleFromDiscard shuffle = d) ∧
    (d.discardPile.length > 1 →
      (d.reshuffleFromDiscard shuffle).discardPile = d.discardPile.take 1 ∧
      (d.reshuffleFromDiscard shuffle).cards.length = d.discardPile.length - 1) := by
  refine ⟨?_, fun hle => ?_, fun hgt => ?_⟩
  · simp [Deck.needsReshuffle]
  · simp [Deck.reshuffleFromDiscard, hle]
  · have hle' : ¬ d.discardPile.length ≤ 1 := by omega
    match hd : d.discardPile with
    | [] => rw [hd] at hgt; simp at hgt
    | t :: rest =>
      rw [hd] at hle'
      unfold Deck.reshuffleFromDiscard
      rw [hd, if_neg hle']
      simp [hs]

/-- Witness for `reshuffle_characterisation`: a concrete empty-pile deck with
three discard cards reshuffles (with the identity permutation) to a
two-card draw pile keeping only its old top discard card. -/
theorem reshuffle_characterisation_witness :
    (Deck.reshuffleFromDiscard id
        ⟨[], [⟨Color.red, Value.num 1⟩, ⟨Color.blue, Value.num 2⟩,
              ⟨Color.green, Value.num 3⟩]⟩).discardPile
      = ([⟨Color.red, Value.num 1⟩, ⟨Color.blue, Value.num 2⟩,
          ⟨Color.green, Value.num 3⟩] : List Card).take 1 ∧
    (Deck.reshuffleFromDiscard id
        ⟨[], [⟨Color.red, Value.num 1⟩, ⟨Color.blue, Value.num 2⟩,
              ⟨Color.green, Value.num 3⟩]⟩).cards.length = 3 - 1 :=
  (reshuffle_characterisation id (fun _ => rfl)
    ⟨[], [⟨Color.red, Value.num 1⟩, ⟨Color.blue, Value.num 2⟩,
          ⟨Color.green, Value.num 3⟩]⟩).2.2 (by decide)

/-- C1: card conservation.  For every room whose game has been started (a
committed `startGame`) and every state reachable from it through the
committed operations (`playCard`, `drawCard` with its guarded reshuffle, and
`callUno`), the draw pile, the discard pile and the players' hands together
hold exactly 108 cards. -/
theorem card_conservation (room : Room) (h : Reaches room) : totalCards room = 108 := by
  induction h with
  | start shuffle hs r hostSid hsucc => exact startGame_success_total shuffle hs r hostSid hsucc
  | play r sid cardIndex chosenColor _ ih => rw [playCard_total]; exact ih
  | draw shuffle hs r sid _ ih => rw [drawCard_total shuffle hs]; exact ih
  | uno r sid _ ih => rw [callUno_total]; exact ih

/-- Witness for `card_conservation`: starting the game in the concrete
two-player lobby room commits successfully, the committed state is reachable,
and it holds exactly 108 cards. -/
theorem card_conservation_witness :
    (GameManager.startGame id waitingRoom2 "sA").1.success = true ∧
    totalCards (GameManager.startGame id waitingRoom2 "sA").2 = 108 :=
  ⟨by decide,
   card_conservation _ (Reaches.start id (fun _ => rfl) waitingRoom2 "sA" (by decide))⟩

/-- C4 (evaluation at the failing input): in the concrete playing state
`c4Room`, the current player commits a wild-draw4 at a valid index choosing
blue, yet the committed result leaves the next player's 3-card hand
unchanged (no 4 cards drawn), advances the turn by only one (the next player
is NOT skipped), and sets `currentColor` to red — the stale
`gameState.chosenColor || 'red'` fallback — not to the chosen blue. -/
theorem wildDraw4_effects_dropped :
    (GameManager.playCard c4Room "sA" 0 (some Color.blue)).1.success = true ∧
    ((GameManager.playCard c4Room "sA" 0 (some Color.blue)).2.players.get? 1).map
        (fun p => p.hand.length) = some 3 ∧
    (GameManager.playCard c4Room "sA" 0 (some Color.blue)).2.gameState.currentPlayerIndex = 1 ∧
    (GameManager.playCard c4Room "sA" 0 (some Color.blue)).2.gameState.currentColor
      = some Color.red := by
  decide

/-- C5 counterexample: drawing as the current player from the concrete state
`c5Room` — empty draw pile, a single discard card, so the reshuffle guard
does not fire and nothing is left to draw — does NOT succeed with zero
cards; it fails with the `'No cards available to draw'` error. -/
theorem drawCard_empty_supply_fails :
    (GameManager.drawCard id c5Room "sA").1.success = false ∧
    (GameManager.drawCard id c5Room "sA").1.error = some ERR_NO_CARDS ∧
    (GameManager.drawCard id c5Room "sA").1.drawnCard = none := by
  decide

/-- C5 amended: `drawCard` reshuffles first when `needsReshuffle` holds (so
the empty-draw failure can never coincide with a due reshuffle); when the
supply is empty it FAILS with `'No cards available to draw'`, leaving the
room unchanged; and every successful draw moves exactly one card into the
drawer's hand and advances the turn by exactly one player. -/
theorem drawCard_behaviour (shuffle : List Card → List Card)
    (hs : ∀ l, (shuffle l).length = l.length) (room : Room) (sid : String) :
    ((GameManager.drawCard shuffle room sid).1.success = false →
      (GameManager.drawCard shuffle room sid).2 = room) ∧
    (room.gameState.deck.needsReshuffle = true →
      (GameManager.drawCard shuffle room sid).1.error ≠ some ERR_NO_CARDS) ∧
    ((GameManager.drawCard shuffle room sid).1.success = true →
      (GameManager.drawCard shuffle room sid).2.gameState.turnNumber
          = room.gameState.turnNumber + 1 ∧
      sumHands (GameManager.drawCard shuffle room sid).2.players
          = sumHands room.players + 1 ∧
      (GameManager.drawCard shuffle room sid).2.gameState.currentPlayerIndex
          = getNextPlayerIndex (room.gameState.currentPlayerIndex : Int)
              room.gameState.direction room.players.length) := by
  refine ⟨drawCard_failure_unchanged shuffle hs room sid, ?_, ?_⟩
  · unfold GameManager.drawCard
    split
    · intro _; simp [ERR_GAME_NOT_STARTED, ERR_NO_CARDS]
    · split
      · intro _; simp [ERR_PLAYER_NOT_FOUND, ERR_NO_CARDS]
      · split
        · intro _; simp [ERR_NOT_YOUR_TURN, ERR_NO_CARDS]
        · dsimp only
          split
          · next deck2 hdraw =>
            intro hns
            exfalso
            rw [if_pos hns] at hdraw
            obtain ⟨_, hnil⟩ := drawCard_none_inv hdraw
            exact reshuffle_cards_ne_nil shuffle hs room.gameState.deck hns hnil
          · intro _; simp
  · unfold GameManager.drawCard
    split
    · intro h; simp at h
    · split
      · intro h; simp at h
      · next j player heq =>
        split
        · intro h; simp at h
        · next hturn =>
          dsimp only
          split
          · intro h; simp at h
          · next c deck2 hdraw =>
            intro _
            have hj := findPlayerBySocket_get? room.players sid j player heq
            have hset := sumHands_set room.players j (player.addCards [c]) player hj
            have hadd : (player.addCards [c]).hand.length = player.hand.length + 1 := by
              simp [Player.addCards]
            rw [hadd] at hset
            have hturn' : playerIndexById room.players player.id
                = (room.gameState.currentPlayerIndex : Int) := by
              by_contra hne
              exact hturn hne
            refine ⟨rfl, by dsimp only; omega, ?_⟩
            dsimp only
            simp only [calculateNextPlayer, if_neg (by simp : ¬ (false = true))]
            rw [hturn']

/-- Witness for `drawCard_behaviour`: the failed draw on `c5Room` leaves it
unchanged, and a successful draw on `c4Room` bumps the turn number. -/
theorem drawCard_behaviour_witness :
    (GameManager.drawCard id c5Room "sA").2 = c5Room ∧
    (GameManager.drawCard id c4Room "sA").2.gameState.turnNumber
      = c4Room.gameState.turnNumber + 1 := by
  constructor
  · exact (drawCard_behaviour id (fun _ => rfl) c5Room "sA").1 (by decide)
  · exact ((drawCard_behaviour id (fun _ => rfl) c4Room "sA").2.2 (by decide)).1

/-- C6: when a committed `playCard` leaves some hand empty, the committed
room has `phase = ended` with `winner` the first player in list order whose
hand is empty, and every subsequent `playCard` or `drawCard` on that room
fails with the `GameNotPlaying` error (`'Game has not started yet'`) without
mutating the room. -/
theorem playCard_win_ends_game (room : Room) (sid : String) (cardIndex : Nat)
    (cc : Option Color) (out : PlayOutcome) (r' : Room)
    (heq : GameManager.playCard room sid cardIndex cc = (out, r'))
    (hsucc : out.success = true)
    (hwin : r'.players.any (fun p => p.hand.isEmpty) = true) :
    r'.gameState.phase = Phase.ended ∧
    r'.gameState.winner = (r'.players.find? (fun p => p.hand.isEmpty)).map (fun p => p.id) ∧
    (∀ sid2 cardIndex2 cc2,
      GameManager.playCard r' sid2 cardIndex2 cc2
        = (⟨false, some ERR_GAME_NOT_STARTED, none⟩, r')) ∧
    (∀ shuffle2 sid2,
      GameManager.drawCard shuffle2 r' sid2
        = (⟨false, some ERR_GAME_NOT_STARTED, none⟩, r')) := by
  unfold GameManager.playCard at heq
  split at heq
  · injection heq with h1 h2
    subst h1
    simp at hsucc
  · split at heq
    · injection heq with h1 h2
      subst h1
      simp at hsucc
    · split at heq
      · injection heq with h1 h2
        subst h1
        simp at hsucc
      · dsimp only at heq
        split at heq
        · next w heqWin =>
          injection heq with h1 h2
          subst h2
          refine ⟨rfl, ?_, ?_, ?_⟩
          · unfold checkWinCondition at heqWin
            rw [find?_isEmpty_updateStats]
            rw [show List.find?
                  (fun p => p.hand.isEmpty)
                  (handlePlayCard room _ _ cardIndex).players = some w from heqWin]
            rfl
          · intro sid2 cardIndex2 cc2
            exact playCard_not_playing _ (fun hcon => Phase.noConfusion hcon) sid2 cardIndex2 cc2
          · intro shuffle2 sid2
            exact drawCard_not_playing shuffle2 _ (fun hcon => Phase.noConfusion hcon) sid2
        · next heqNone =>
          injection heq with h1 h2
          subst h2
          unfold checkWinCondition at heqNone
          rw [List.find?_eq_none] at heqNone
          rw [List.any_eq_true] at hwin
          obtain ⟨x, hx, hempty⟩ := hwin
          exact absurd hempty (heqNone x hx)

/-- Witness for `playCard_win_ends_game`: Alice playing her last card in
`c6Room` ends the game with Alice (`"idA"`) as the recorded winner. -/
theorem playCard_win_ends_game_witness :
    (GameManager.playCard c6Room "sA" 0 none).2.gameState.phase = Phase.ended ∧
    (GameManager.playCard c6Room "sA" 0 none).2.gameState.winner = some "idA" := by
  have h := playCard_win_ends_game c6Room "sA" 0 none
    (GameManager.playCard c6Room "sA" 0 none).1 (GameManager.playCard c6Room "sA" 0 none).2
    rfl (by decide) (by decide)
  refine ⟨h.1, ?_⟩
  rw [h.2.1]
  decide

/-- C8 (evaluation at the failing input): in `c4Room` the caller holds two
cards, so the rule engine's own `checkUnoValidity` orders a penalty; but the
committed `callUno` reports the generic server error (`GAME_RULES` is not
imported in the GameManager module, so the penalty branch throws a
ReferenceError) and the room — in particular the caller's hand — is left
unchanged: no 2-card penalty is drawn and no `penalized = true` is
reported. -/
theorem callUno_miscall_server_error :
    (checkUnoValidity c4Alice).shouldPenalize = true ∧
    (GameManager.callUno c4Room "sA").1.success = false ∧
    (GameManager.callUno c4Room "sA").1.error = some ERR_SERVER_ERROR ∧
    (GameManager.callUno c4Room "sA").1.penalized = false ∧
    (GameManager.callUno c4Room "sA").2 = c4Room := by
  decide

/-- C9 counterexample: with a random tape that generates the already-live
code `"AAAAAA"`, `createRoom` does not detect the collision — it `Map.set`s
the new room under the same key, OVERWRITING the existing room's registry
entry. -/
theorem createRoom_collision_overwrites :
    generateRoomId rand0 = "AAAAAA" ∧
    mapGet [("AAAAAA", oldRoom)] "AAAAAA" = some oldRoom ∧
    (GameManager.createRoom rand0 id [("AAAAAA", oldRoom)] "idNew" "sNew" "NewHost" 4).2
      = [("AAAAAA", freshRoom "AAAAAA" "idNew" "sNew" "NewHost" 4 id)] ∧
    freshRoom "AAAAAA" "idNew" "sNew" "NewHost" 4 id ≠ oldRoom := by
  decide

/-- C9 amended: every `createRoom` assigns a code of exactly 6 characters
drawn from `[A-Z0-9]` and registers the new room under that code — but with
NO uniqueness check against the live-room registry, so a colliding code
replaces the existing entry (`mapGet` afterwards yields the new room
regardless of what was there). -/
theorem createRoom_code_format (rand : Nat → Fin 36) (shuffle : List Card → List Card)
    (rooms : List (String × Room)) (hostPid hostSocketId hostName : String)
    (maxPlayers : Nat) :
    (GameManager.createRoom rand shuffle rooms hostPid hostSocketId hostName maxPlayers).1.length
        = ROOM_ID_LENGTH ∧
    (∀ ch ∈ (GameManager.createRoom rand shuffle rooms hostPid hostSocketId
        hostName maxPlayers).1.toList, ch ∈ roomIdChars) ∧
    mapGet (GameManager.createRoom rand shuffle rooms hostPid hostSocketId hostName maxPlayers).2
        (GameManager.createRoom rand shuffle rooms hostPid hostSocketId hostName maxPlayers).1
      = some (freshRoom
          (GameManager.createRoom rand shuffle rooms hostPid hostSocketId hostName maxPlayers).1
          hostPid hostSocketId hostName maxPlayers shuffle) := by
  have hmem : ∀ (j : Fin 36), roomIdChars.getD j.val 'A' ∈ roomIdChars := by decide
  refine ⟨rfl, ?_, ?_⟩
  · intro ch hch
    have : ch ∈ (List.range ROOM_ID_LENGTH).map (fun i => roomIdChars.getD (rand i).val 'A') := hch
    rw [List.mem_map] at this
    obtain ⟨i, _, hfi⟩ := this
    rw [← hfi]
    exact hmem (rand i)
  · exact mapGet_mapSet_self rooms (generateRoomId rand)
      (freshRoom (generateRoomId rand) hostPid hostSocketId hostName maxPlayers shuffle)

/-- Witness for `createRoom_code_format`: the all-zeros tape produces the
6-character code `"AAAAAA"` whose characters are in the alphabet. -/
theorem createRoom_code_format_witness :
    (GameManager.createRoom rand0 id [] "idNew" "sNew" "NewHost" 4).1.length
        = ROOM_ID_LENGTH ∧
    'A' ∈ roomIdChars := by
  refine ⟨(createRoom_code_format rand0 id [] "idNew" "sNew" "NewHost" 4).1, ?_⟩
  exact (createRoom_code_format rand0 id [] "idNew" "sNew" "NewHost" 4).2.1 'A' (by decide)

/-- C10 amended: every failure outcome of `playCard`, `drawCard`, `callUno`
and `joinRoom` leaves the room exactly as it was (for shuffles that preserve
length, as Fisher–Yates does).  `startGame` is the exception established by
`startGame_failure_mutates`. -/
theorem actions_atomic_on_failure (shuffle : List Card → List Card)
    (hs : ∀ l, (shuffle l).length = l.length) (room : Room) (sid pid name : String)
    (cardIndex : Nat) (cc : Option Color) :
    ((GameManager.playCard room sid cardIndex cc).1.success = false →
      (GameManager.playCard room sid cardIndex cc).2 = room) ∧
    ((GameManager.drawCard shuffle room sid).1.success = false →
      (GameManager.drawCard shuffle room sid).2 = room) ∧
    ((GameManager.callUno room sid).1.success = false →
      (GameManager.callUno room sid).2 = room) ∧
    ((GameManager.joinRoom room pid sid name).1.success = false →
      (GameManager.joinRoom room pid sid name).2 = room) :=
  ⟨playCard_failure_unchanged room sid cardIndex cc,
   drawCard_failure_unchanged shuffle hs room sid,
   callUno_failure_unchanged room sid,
   joinRoom_failure_unchanged room pid sid name⟩

/-- Witness for `actions_atomic_on_failure`: a not-your-turn `playCard` and a
game-already-started `joinRoom` against `c4Room` both fail and leave the room
unchanged. -/
theorem actions_atomic_on_failure_witness :
    (GameManager.playCard c4Room "sB" 0 none).2 = c4Room ∧
    (GameManager.joinRoom c4Room "idC" "sC" "Carol").2 = c4Room := by
  constructor
  · exact (actions_atomic_on_failure id (fun _ => rfl) c4Room "sB" "idC" "Carol" 0 none).1
      (by decide)
  · exact (actions_atomic_on_failure id (fun _ => rfl) c4Room "sB" "idC" "Carol" 0 none).2.2.2
      (by decide)

/-- C10 counterexample: `room16` — reachable because the client-supplied
`settings.maxPlayers` is stored unvalidated — has 16 players, so dealing
7 × 16 = 112 > 108 cards fails inside `initializeGame` AFTER the players were
reset and the deck replaced; `startGame` reports the generic server error,
yet the room state differs from the pre-call state (the fresh shuffle left a
different draw pile): the failure commits a partial mutation. -/
theorem startGame_failure_mutates :
    room16.players.length = 16 ∧
    room16.gameState.phase = Phase.waiting ∧
    (GameManager.startGame List.reverse room16 "sH").1.success = false ∧
    (GameManager.startGame List.reverse room16 "sH").1.error = some ERR_SERVER_ERROR ∧
    (GameManager.startGame List.reverse room16 "sH").2 ≠ room16 := by
  decide

end UNO
